import Mathlib

/-!
Shallow embedding of the PubMed paper-retrieval pipeline
(`src/get_papers_NCBI/get_papers_list.py`, class `PubMedFetcher`, canonical
revision; the alternate revision `src/get-papers-list.py` is embedded where a
claim refers to it).  Python strings are modelled as Lean `String`
(lowercasing as a `Char`-wise map, matching CPython `.lower()` on the ASCII
vocabularies used here), Python `None`-able strings as `Option String`,
missing XML nodes as `Option`, and the HTTP transport as an explicit function
parameter returning either a parsed payload or a fault (the code catches all
exceptions of a request/parse uniformly).
-/

namespace GetPapers

/-- Python truthiness of an optional string: `None` and `""` are falsy. -/
def pyTruthy : Option String → Bool
  | none => false
  | some s => !(s == "")

/-- Python `x or default` on an optional string. -/
def pyOrStr (o : Option String) (default : String) : String :=
  if pyTruthy o then o.getD "" else default

/-- Boolean prefix test on character lists. -/
def isPrefixOfL : List Char → List Char → Bool
  | [], _ => true
  | _ :: _, [] => false
  | a :: as, b :: bs => a == b && isPrefixOfL as bs

/-- Boolean contiguous-substring test on character lists: Python `needle in hay`. -/
def isInfixOfL (needle : List Char) : List Char → Bool
  | [] => needle.isEmpty
  | c :: cs => isPrefixOfL needle (c :: cs) || isInfixOfL needle cs

/-- Python `str.lower()` as a character list (character-wise lowercasing). -/
def pyLower (s : String) : List Char := s.toList.map Char.toLower

/-- Python `needle in hay.lower()` for a vocabulary term `needle`. -/
def termIn (needle : String) (affLower : List Char) : Bool :=
  isInfixOfL needle.toList affLower

/-- `PubMedFetcher.COMPANY_KEYWORDS`. -/
def COMPANY_KEYWORDS : List String :=
  ["biotech", "biotechnology", "therapeutics", "sciences", "solutions",
   "technologies", "biosciences", "biopharma", "biopharmaceuticals"]

/-- `PubMedFetcher.LEGAL_ENTITIES`. -/
def LEGAL_ENTITIES : List String :=
  ["corp", "corporation", "company", "inc", "ltd", "llc", "llp",
   "gmbh", "ag", "sa", "bv", "nv", "srl", "spa", "plc", "pty",
   "co.", "co ", " co", "limited", "enterprises", "holdings"]

/-- `PubMedFetcher.KNOWN_COMPANIES` (the entry `cureVac` keeps its source capitalisation). -/
def KNOWN_COMPANIES : List String :=
  ["pfizer", "moderna", "johnson", "merck", "roche", "novartis",
   "sanofi", "astrazeneca", "gsk", "glaxosmithkline", "abbvie", "biogen", "amgen",
   "gilead", "vertex", "illumina", "regeneron", "celgene", "bristol",
   "boehringer", "takeda", "bayer", "eli lilly", "lilly", "abbott",
   "daiichi", "sankyo", "eisai", "astellas", "otsuka", "shionogi",
   "chugai", "sumitomo", "mitsubishi", "tanabe", "kyowa", "kirin",
   "alexion", "incyte", "biomarin", "sarepta", "bluebird", "spark",
   "crispr", "editas", "intellia", "sangamo", "precision", "exact",
   "foundation", "guardant", "veracyte", "10x genomics", "twist",
   "pacific", "seagen", "immunomedics", "macrogenics", "nektar",
   "halozyme", "dynavax", "vaxcyte", "novavax", "cureVac", "biontech",
   "alnylam", "ionis", "wave", "dicerna", "arrowhead", "silence"]

/-- `PubMedFetcher.ACADEMIC_EXCLUSIONS`. -/
def ACADEMIC_EXCLUSIONS : List String :=
  ["university", "college", "school", "institute", "hospital",
   "medical center", "health system", "research center", "clinic",
   "academic", "faculty", "department", "division", "section",
   "laboratory", "center for", "centre for", "research institute"]

/-- `PubMedFetcher._is_company_affiliation`: lowercase the affiliation, then an
ordered rule cascade — academic exclusions (false), known companies (true),
legal-entity suffixes (true), industry keywords (true), default false. -/
def is_company_affiliation (affiliation : String) : Bool :=
  let aff_lower := pyLower affiliation
  if ACADEMIC_EXCLUSIONS.any (fun e => termIn e aff_lower) then false
  else if KNOWN_COMPANIES.any (fun c => termIn c aff_lower) then true
  else if LEGAL_ENTITIES.any (fun e => termIn e aff_lower) then true
  else if COMPANY_KEYWORDS.any (fun k => termIn k aff_lower) then true
  else false

/-- Outcome of one ESearch page request: either the parsed id list, or a
fault (transport error, HTTP status error, or XML parse error — the source
catches all of these in one `except` clause). -/
inductive PageResult where
  | fault : PageResult
  | ok : List String → PageResult

/-- The `while` loop of `PubMedFetcher.fetch_pmids`, with the transport as a
function `pages` from `retstart` offset to that page's outcome.  While the
pool is smaller than `maxTotal`, request the page at `retstart`; a fault or
an empty page ends the loop with the pool as accumulated; otherwise the ids
are appended, and the loop continues at offset `retstart + retmax` only when
the page was full (`ids.length < retmax` ends it after the append). -/
def fetch_pmids_loop (retmax maxTotal : Nat) (pages : Nat → PageResult)
    (retstart : Nat) (acc : List String) : List String :=
  if h1 : acc.length < maxTotal then
    match pages retstart with
    | PageResult.fault => acc
    | PageResult.ok ids =>
      if h2 : ids.isEmpty then acc
      else if ids.length < retmax then acc ++ ids
      else fetch_pmids_loop retmax maxTotal pages (retstart + retmax) (acc ++ ids)
  else acc
termination_by maxTotal - acc.length
decreasing_by
  have h3 : ids ≠ [] := by
    intro h
    rw [h] at h2
    simp at h2
  have h4 : 0 < ids.length := List.length_pos.mpr h3
  simp only [List.length_append]
  omega

/-- `PubMedFetcher.fetch_pmids` (canonical revision): page size `retmax = 100`,
loop bound `max_results * 5`, starting offset 0, empty initial pool.  The
final pool is returned as accumulated; no truncation is applied. -/
def fetch_pmids (max_results : Nat) (pages : Nat → PageResult) : List String :=
  fetch_pmids_loop 100 (max_results * 5) pages 0 []

/-- `PubMedFetcher.fetch_pmids` of the alternate revision
(`src/get-papers-list.py`): loop bound `max_results` (no overfetch factor),
then `self.pmids = self.pmids[:self.max_results]`. -/
def fetch_pmids_alt (max_results : Nat) (pages : Nat → PageResult) : List String :=
  (fetch_pmids_loop 100 max_results pages 0 []).take max_results

theorem fetch_pmids_loop_stop (retmax maxTotal : Nat) (pages : Nat → PageResult)
    (retstart : Nat) (acc : List String) (h : ¬ acc.length < maxTotal) :
    fetch_pmids_loop retmax maxTotal pages retstart acc = acc := by
  unfold fetch_pmids_loop
  simp [h]

theorem fetch_pmids_loop_fault (retmax maxTotal : Nat) (pages : Nat → PageResult)
    (retstart : Nat) (acc : List String) (h : acc.length < maxTotal)
    (hf : pages retstart = PageResult.fault) :
    fetch_pmids_loop retmax maxTotal pages retstart acc = acc := by
  unfold fetch_pmids_loop
  simp [h, hf]

theorem fetch_pmids_loop_empty (retmax maxTotal : Nat) (pages : Nat → PageResult)
    (retstart : Nat) (acc : List String) (h : acc.length < maxTotal)
    (hf : pages retstart = PageResult.ok []) :
    fetch_pmids_loop retmax maxTotal pages retstart acc = acc := by
  unfold fetch_pmids_loop
  simp [h, hf]

theorem fetch_pmids_loop_short (retmax maxTotal : Nat) (pages : Nat → PageResult)
    (retstart : Nat) (acc ids : List String) (h : acc.length < maxTotal)
    (hf : pages retstart = PageResult.ok ids) (hne : ids ≠ [])
    (hsh : ids.length < retmax) :
    fetch_pmids_loop retmax maxTotal pages retstart acc = acc ++ ids := by
  unfold fetch_pmids_loop
  simp [h, hf, hne, hsh]

theorem fetch_pmids_loop_full (retmax maxTotal : Nat) (pages : Nat → PageResult)
    (retstart : Nat) (acc ids : List String) (h : acc.length < maxTotal)
    (hf : pages retstart = PageResult.ok ids) (hne : ids ≠ [])
    (hsh : ¬ ids.length < retmax) :
    fetch_pmids_loop retmax maxTotal pages retstart acc
      = fetch_pmids_loop retmax maxTotal pages (retstart + retmax) (acc ++ ids) := by
  conv_lhs => unfold fetch_pmids_loop
  simp [h, hf, hne, hsh]

/-- One `Author` XML node: `findtext` results for `LastName` and `ForeName`
(`none` = node absent), and the `findtext('Affiliation')` result of each
`AffiliationInfo` child, in document order. -/
structure Author where
  lastName : Option String
  foreName : Option String
  affiliationInfos : List (Option String)

/-- One entry of the `authors_info` list built by
`_extract_authors_and_affiliations`. -/
structure AuthorInfo where
  name : String
  affiliations : List String

/-- The `PubDate` XML node: `findtext` results for `Year`, `Month`, `Day`. -/
structure PubDate where
  year : Option String
  month : Option String
  day : Option String

/-- One `PubmedArticle` XML node, as read by the extractor: `findtext`
results for PMID and title, the optional `PubDate` node, the `Author` nodes,
and the text of each `AbstractText` node in document order. -/
structure Article where
  pmid : Option String
  title : Option String
  pubDate : Option PubDate
  authors : List Author
  abstractTexts : List (Option String)

/-- The six-field dictionary returned by `_extract_paper_data`. -/
structure PaperRecord where
  pubmedID : String
  title : String
  publicationDate : String
  nonAcademicAuthors : String
  companyAffiliations : String
  correspondingEmail : String

/-- The name construction of `_extract_authors_and_affiliations`:
`f"{fore} {last}" if fore and last else last or "Unknown"`. -/
def author_name (fore last : Option String) : String :=
  if pyTruthy fore && pyTruthy last then fore.getD "" ++ " " ++ last.getD ""
  else if pyTruthy last then last.getD "" else "Unknown"

/-- `PubMedFetcher._extract_authors_and_affiliations`: per author, build the
name and keep every truthy affiliation text. -/
def extract_authors_and_affiliations (article : Article) : List AuthorInfo :=
  article.authors.map (fun a =>
    { name := author_name a.foreName a.lastName
      affiliations := (a.affiliationInfos.filter pyTruthy).map (fun o => o.getD "") })

/-- `PubMedFetcher._filter_company_authors`: names of authors with at least
one company-classified affiliation, deduplicated (`list(set(...))` — set
semantics; enumeration order is unspecified in the source, `List.dedup` is
the representative enumeration used here). -/
def filter_company_authors (authors_info : List AuthorInfo) : List String :=
  ((authors_info.filter (fun a => a.affiliations.any is_company_affiliation)).map
    (fun a => a.name)).dedup

/-- `PubMedFetcher._extract_company_affiliations`: all company-classified
affiliation strings of all authors, deduplicated (`list(set(...))`). -/
def extract_company_affiliations (authors_info : List AuthorInfo) : List String :=
  ((authors_info.map (fun a => a.affiliations.filter is_company_affiliation)).flatten).dedup

/-- `PubMedFetcher._extract_publication_date`:
`'-'.join(filter(None, [year, month, day])) or "Unknown"`, or "Unknown" when
the `PubDate` node is absent. -/
def extract_publication_date (pd : Option PubDate) : String :=
  match pd with
  | none => "Unknown"
  | some p =>
    let parts := ([p.year, p.month, p.day].filter pyTruthy).map (fun o => o.getD "")
    if parts.isEmpty then "Unknown" else String.intercalate "-" parts

/-- One attempted match of the pattern `[\w\.-]+@[\w\.-]+` at the start of
`cs`: a nonempty run of pattern characters, an `@`, a nonempty run of
pattern characters. -/
def emailChar (c : Char) : Bool := c.isAlpha || c.isDigit || c == '_' || c == '.' || c == '-'

def emailMatchAt (cs : List Char) : Option (List Char) :=
  let run1 := cs.takeWhile emailChar
  if run1.isEmpty then none
  else
    match cs.dropWhile emailChar with
    | '@' :: rest =>
      let run2 := rest.takeWhile emailChar
      if run2.isEmpty then none else some (run1 ++ '@' :: run2)
    | _ => none

/-- `re.search` of the pattern `[\w\.-]+@[\w\.-]+` over one text: the
leftmost match (word characters restricted to the ASCII range). -/
def searchEmail : List Char → Option (List Char)
  | [] => none
  | c :: cs =>
    match emailMatchAt (c :: cs) with
    | some m => some m
    | none => searchEmail cs

/-- `PubMedFetcher._extract_corresponding_email`: scan the `AbstractText`
nodes in order, return the first regex match, else "Not available". -/
def extract_corresponding_email (texts : List (Option String)) : String :=
  match texts with
  | [] => "Not available"
  | t :: rest =>
    if pyTruthy t then
      match searchEmail (t.getD "").toList with
      | some m => String.mk m
      | none => extract_corresponding_email rest
    else extract_corresponding_email rest

/-- `PubMedFetcher._extract_paper_data` on a well-formed article node: build
the fields, and yield `none` exactly when no company-affiliated author was
found (the gatekeeping filter). -/
def extract_paper_data (article : Article) : Option PaperRecord :=
  let authors_info := extract_authors_and_affiliations article
  let company_authors := filter_company_authors authors_info
  if company_authors.isEmpty then none
  else some
    { pubmedID := pyOrStr article.pmid "Unknown"
      title := pyOrStr article.title "No title"
      publicationDate := extract_publication_date article.pubDate
      nonAcademicAuthors := String.intercalate "; " company_authors
      companyAffiliations := String.intercalate "; "
        (extract_company_affiliations authors_info)
      correspondingEmail := extract_corresponding_email article.abstractTexts }

/-- One `PubmedArticle` node of a batch response, as seen by
`_extract_paper_data`: either well-formed (the `try` body runs to the end),
or a node whose structure makes the body raise (caught by the `except`
clause, which returns `None`). -/
inductive ArticleNode where
  | wellFormed : Article → ArticleNode
  | faulty : ArticleNode

/-- `PubMedFetcher._extract_paper_data` on an article node: the `except`
clause converts an extraction fault into `None`. -/
def extract_paper_data_node : ArticleNode → Option PaperRecord
  | ArticleNode.wellFormed a => extract_paper_data a
  | ArticleNode.faulty => none

/-- Outcome of one EFetch batch request: either the parsed article nodes, or
a fault (transport, HTTP status or XML parse error — the source catches all
of these in one `except` clause around the whole batch body). -/
inductive BatchResult where
  | fault : BatchResult
  | ok : List ArticleNode → BatchResult

/-- The article loop of `_fetch_batch_details`: extract each node, append
non-null results, and break as soon as the accumulated result count reaches
`max_results`. -/
def process_articles (max_results : Nat) : List ArticleNode → List PaperRecord → List PaperRecord
  | [], acc => acc
  | node :: rest, acc =>
    match extract_paper_data_node node with
    | none => process_articles max_results rest acc
    | some r =>
      if (acc ++ [r]).length ≥ max_results then acc ++ [r]
      else process_articles max_results rest (acc ++ [r])

/-- `PubMedFetcher._fetch_batch_details`: a faulted batch is logged and
contributes nothing; a successful batch runs the article loop. -/
def fetch_batch_details (max_results : Nat) (resp : BatchResult)
    (acc : List PaperRecord) : List PaperRecord :=
  match resp with
  | BatchResult.fault => acc
  | BatchResult.ok articles => process_articles max_results articles acc

/-- The batch partition `range(0, len(pmids), batch_size)` with
`batch_size = 100`: consecutive slices of 100 identifiers. -/
def chunks100 : List String → List (List String)
  | [] => []
  | x :: rest => ((x :: rest).take 100) :: chunks100 ((x :: rest).drop 100)
termination_by l => l.length
decreasing_by
  simp only [List.length_drop, List.length_cons]
  omega

/-- The batch loop of `PubMedFetcher.fetch_paper_details`: fetch each batch
in order (the transport maps a batch of pmids to its response), and break
once the accumulated result count has reached `max_results`. -/
def fetch_paper_details_loop (max_results : Nat) (transport : List String → BatchResult) :
    List (List String) → List PaperRecord → List PaperRecord
  | [], acc => acc
  | batch :: rest, acc =>
    let acc2 := fetch_batch_details max_results (transport batch) acc
    if acc2.length ≥ max_results then acc2
    else fetch_paper_details_loop max_results transport rest acc2

/-- `PubMedFetcher.fetch_paper_details`: return immediately when there are
no pmids; otherwise run the batch loop over the 100-sized batches starting
from an empty result list. -/
def fetch_paper_details (max_results : Nat) (transport : List String → BatchResult)
    (pmids : List String) : List PaperRecord :=
  if pmids.isEmpty then []
  else fetch_paper_details_loop max_results transport (chunks100 pmids) []

theorem process_articles_length_le (max_results : Nat) (nodes : List ArticleNode) :
    ∀ acc : List PaperRecord, acc.length < max_results →
      (process_articles max_results nodes acc).length ≤ max_results := by
  induction nodes with
  | nil =>
    intro acc h
    exact Nat.le_of_lt h
  | cons node rest ih =>
    intro acc h
    simp only [process_articles]
    cases hx : extract_paper_data_node node with
    | none =>
      exact ih acc h
    | some r =>
      by_cases hge : (acc ++ [r]).length ≥ max_results
      · simp only [hge, if_true]
        simp only [List.length_append, List.length_cons, List.length_nil]
        omega
      · simp only [hge, if_false]
        apply ih
        simp only [List.length_append, List.length_cons, List.length_nil] at hge ⊢
        omega

theorem fetch_batch_details_length_le (max_results : Nat) (resp : BatchResult)
    (acc : List PaperRecord) (h : acc.length < max_results) :
    (fetch_batch_details max_results resp acc).length ≤ max_results := by
  cases resp with
  | fault => exact Nat.le_of_lt h
  | ok articles => exact process_articles_length_le max_results articles acc h

theorem fetch_paper_details_loop_length_le (max_results : Nat)
    (transport : List String → BatchResult) (batches : List (List String)) :
    ∀ acc : List PaperRecord, acc.length < max_results →
      (fetch_paper_details_loop max_results transport batches acc).length ≤ max_results := by
  induction batches with
  | nil =>
    intro acc h
    exact Nat.le_of_lt h
  | cons batch rest ih =>
    intro acc h
    simp only [fetch_paper_details_loop]
    have h2 : (fetch_batch_details max_results (transport batch) acc).length ≤ max_results :=
      fetch_batch_details_length_le max_results (transport batch) acc h
    by_cases hge : (fetch_batch_details max_results (transport batch) acc).length ≥ max_results
    · simp only [hge, if_true]
      exact h2
    · simp only [hge, if_false]
      apply ih
      omega

end GetPapers

namespace GetPapers

/-- C1: any affiliation string containing (case-insensitively) a term of the
academic-exclusion vocabulary classifies as not-a-company, regardless of any
company names, legal-entity suffixes or industry keywords it also contains. -/
theorem c1_exclusion_precedence (aff : String)
    (h : ∃ e ∈ ACADEMIC_EXCLUSIONS, termIn e (pyLower aff) = true) :
    is_company_affiliation aff = false := by
  obtain ⟨e, he, hsub⟩ := h
  have hany : ACADEMIC_EXCLUSIONS.any (fun t => termIn t (pyLower aff)) = true :=
    List.any_eq_true.mpr ⟨e, he, hsub⟩
  unfold is_company_affiliation
  simp only [hany, if_true]

/-- C1 witness: "Pfizer Research Institute Inc" contains the known company
"pfizer" and the legal-entity suffix "inc", yet classifies false because it
contains the exclusion term "institute". -/
theorem c1_exclusion_precedence_witness :
    is_company_affiliation "Pfizer Research Institute Inc" = false :=
  c1_exclusion_precedence "Pfizer Research Institute Inc" (by decide)

/-- C6: during identifier-search pagination, a transport or parse fault on
the current page terminates the loop immediately (no retry) and the pool
accumulated from the earlier pages is returned exactly as it stands. -/
theorem c6_pagination_fault_keeps_pool (max_results retstart : Nat)
    (pages : Nat → PageResult) (acc : List String)
    (hf : pages retstart = PageResult.fault) (h : acc.length < max_results * 5) :
    fetch_pmids_loop 100 (max_results * 5) pages retstart acc = acc :=
  fetch_pmids_loop_fault 100 (max_results * 5) pages retstart acc h hf

/-- C6 witness: a run whose second page faults returns exactly the first page. -/
theorem c6_pagination_fault_keeps_pool_witness :
    fetch_pmids_loop 100 (1 * 5) (fun _ => PageResult.fault) 100
      ["10", "11"] = ["10", "11"] :=
  c6_pagination_fault_keeps_pool 1 100 (fun _ => PageResult.fault)
    ["10", "11"] rfl (by decide)

/-- Mocked transport for the C8 scenario: page size 2, offset 0 yields
["1", "2"], offset 2 yields ["3"]; any other offset yields a marker that
would corrupt the pool if the loop failed to stop after the short page or
queried a wrong offset. -/
def scenarioPages : Nat → PageResult := fun off =>
  if off = 0 then PageResult.ok ["1", "2"]
  else if off = 2 then PageResult.ok ["3"]
  else PageResult.ok ["bad"]

/-- C8: pagination starts at offset 0 and advances by the page size after a
full page (last conjunct); it stops when the pool has reached the bound
(second conjunct), on an empty page (third), or after appending a short page
(fourth); on the mocked pages [["1","2"],["3"]] with page size 2 the pool is
["1","2","3"] and pagination stops after the short page (first conjunct —
any further or wrongly-offset request would have injected "bad"). -/
theorem c8_pagination_behaviour :
    fetch_pmids_loop 2 (20 * 5) scenarioPages 0 [] = ["1", "2", "3"]
    ∧ (∀ retmax maxTotal pages retstart acc, ¬ acc.length < maxTotal →
        fetch_pmids_loop retmax maxTotal pages retstart acc = acc)
    ∧ (∀ retmax maxTotal pages retstart acc, acc.length < maxTotal →
        pages retstart = PageResult.ok [] →
        fetch_pmids_loop retmax maxTotal pages retstart acc = acc)
    ∧ (∀ retmax maxTotal pages retstart acc ids, acc.length < maxTotal →
        pages retstart = PageResult.ok ids → ids ≠ [] → ids.length < retmax →
        fetch_pmids_loop retmax maxTotal pages retstart acc = acc ++ ids)
    ∧ (∀ retmax maxTotal pages retstart acc ids, acc.length < maxTotal →
        pages retstart = PageResult.ok ids → ids ≠ [] → ¬ ids.length < retmax →
        fetch_pmids_loop retmax maxTotal pages retstart acc
          = fetch_pmids_loop retmax maxTotal pages (retstart + retmax) (acc ++ ids)) := by
  refine ⟨?_, fetch_pmids_loop_stop, ?_, ?_, ?_⟩
  · rw [fetch_pmids_loop_full 2 (20 * 5) scenarioPages 0 [] ["1", "2"]
      (by decide) rfl (by decide) (by decide)]
    show fetch_pmids_loop 2 (20 * 5) scenarioPages 2 ["1", "2"] = ["1", "2", "3"]
    rw [fetch_pmids_loop_short 2 (20 * 5) scenarioPages 2 ["1", "2"] ["3"]
      (by decide) rfl (by decide) (by decide)]
    decide
  · intro retmax maxTotal pages retstart acc h hf
    exact fetch_pmids_loop_empty retmax maxTotal pages retstart acc h hf
  · intro retmax maxTotal pages retstart acc ids h hf hne hsh
    exact fetch_pmids_loop_short retmax maxTotal pages retstart acc ids h hf hne hsh
  · intro retmax maxTotal pages retstart acc ids h hf hne hsh
    exact fetch_pmids_loop_full retmax maxTotal pages retstart acc ids h hf hne hsh

/-- C8 witness: the stop conditions applied at concrete inputs — pool already
at the bound; empty page; short page appended then stop; full page advancing
the offset by the page size. -/
theorem c8_pagination_behaviour_witness :
    fetch_pmids_loop 2 0 scenarioPages 7 ["a"] = ["a"]
    ∧ fetch_pmids_loop 2 100 (fun _ => PageResult.ok []) 4 ["a"] = ["a"]
    ∧ fetch_pmids_loop 2 100 (fun _ => PageResult.ok ["z"]) 0 [] = ["z"]
    ∧ fetch_pmids_loop 2 1 (fun _ => PageResult.ok ["x", "y"]) 0 []
        = fetch_pmids_loop 2 1 (fun _ => PageResult.ok ["x", "y"]) 2 ["x", "y"] :=
  ⟨c8_pagination_behaviour.2.1 2 0 scenarioPages 7 ["a"] (by decide),
   c8_pagination_behaviour.2.2.1 2 100 (fun _ => PageResult.ok []) 4 ["a"]
     (by decide) rfl,
   c8_pagination_behaviour.2.2.2.1 2 100 (fun _ => PageResult.ok ["z"]) 0 [] ["z"]
     (by decide) rfl (by decide) (by decide),
   c8_pagination_behaviour.2.2.2.2 2 1 (fun _ => PageResult.ok ["x", "y"]) 0 []
     ["x", "y"] (by decide) rfl (by decide) (by decide)⟩

/-- Mocked transport that always returns a full page of 100 identifiers. -/
def fullPages : Nat → PageResult := fun _ => PageResult.ok (List.replicate 100 "x")

/-- C3 counterexample: with quota 1 the claimed bound is 1 × 5 = 5, but a
single full page of 100 identifiers makes the loop condition fail only after
all 100 have been appended; the pool is returned with 100 entries and no
truncation is applied. -/
theorem c3_pool_bound_counterexample :
    (fetch_pmids 1 fullPages).length = 100 ∧ ¬ (fetch_pmids 1 fullPages).length ≤ 1 * 5 := by
  have h1 : fetch_pmids 1 fullPages
      = fetch_pmids_loop 100 (1 * 5) fullPages 100 ([] ++ List.replicate 100 "x") :=
    fetch_pmids_loop_full 100 (1 * 5) fullPages 0 [] (List.replicate 100 "x")
      (by decide) rfl (by simp) (by simp)
  have h2 : fetch_pmids_loop 100 (1 * 5) fullPages 100 ([] ++ List.replicate 100 "x")
      = [] ++ List.replicate 100 "x" :=
    fetch_pmids_loop_stop 100 (1 * 5) fullPages 100 ([] ++ List.replicate 100 "x") (by simp)
  rw [h1, h2]
  simp

/-- Auxiliary bound: if every successful page returns at most `retmax`
identifiers, the pagination loop keeps the pool strictly below
`maxTotal + retmax` (the loop can overshoot the `maxTotal` bound by at most
one page). -/
theorem fetch_pmids_loop_length_bound (retmax maxTotal : Nat) (pages : Nat → PageResult)
    (hpages : ∀ off ids, pages off = PageResult.ok ids → ids.length ≤ retmax) :
    ∀ n retstart acc, maxTotal - acc.length ≤ n → acc.length < maxTotal + retmax →
      (fetch_pmids_loop retmax maxTotal pages retstart acc).length < maxTotal + retmax := by
  intro n
  induction n with
  | zero =>
    intro retstart acc hn hacc
    have h : ¬ acc.length < maxTotal := by omega
    rw [fetch_pmids_loop_stop _ _ _ _ _ h]
    exact hacc
  | succ n ih =>
    intro retstart acc hn hacc
    by_cases h : acc.length < maxTotal
    · cases hp : pages retstart with
      | fault =>
        rw [fetch_pmids_loop_fault _ _ _ _ _ h hp]
        exact hacc
      | ok ids =>
        by_cases hne : ids = []
        · subst hne
          rw [fetch_pmids_loop_empty _ _ _ _ _ h hp]
          exact hacc
        · have hlen : ids.length ≤ retmax := hpages _ _ hp
          have hpos : 0 < ids.length := List.length_pos.mpr hne
          by_cases hsh : ids.length < retmax
          · rw [fetch_pmids_loop_short _ _ _ _ _ _ h hp hne hsh]
            simp only [List.length_append]
            omega
          · rw [fetch_pmids_loop_full _ _ _ _ _ _ h hp hne hsh]
            apply ih
            · simp only [List.length_append]
              omega
            · simp only [List.length_append]
              omega
    · rw [fetch_pmids_loop_stop _ _ _ _ _ h]
      exact hacc

/-- C3 amended: the canonical `fetch_pmids` does not truncate; its pool can
exceed `quota × 5`, but (assuming each page returns at most the page size of
100 identifiers) only by less than one page: the pool stays strictly below
`quota × 5 + 100`.  The alternate revision does truncate, but to the quota
itself, not to `quota × 5`. -/
theorem c3_pool_bound_amended (max_results : Nat) (pages : Nat → PageResult)
    (hpages : ∀ off ids, pages off = PageResult.ok ids → ids.length ≤ 100) :
    (fetch_pmids max_results pages).length < max_results * 5 + 100
    ∧ (fetch_pmids_alt max_results pages).length ≤ max_results := by
  constructor
  · exact fetch_pmids_loop_length_bound 100 (max_results * 5) pages hpages
      (max_results * 5) 0 [] (by simp only [List.length_nil]; omega)
      (by simp only [List.length_nil]; omega)
  · simpa [fetch_pmids_alt] using
      List.length_take_le max_results (fetch_pmids_loop 100 max_results pages 0 [])

/-- C3 amended witness: the overshooting run of the counterexample still
respects the amended bound, and the alternate revision truncates to quota 1. -/
theorem c3_pool_bound_amended_witness :
    (fetch_pmids 1 fullPages).length < 1 * 5 + 100
    ∧ (fetch_pmids_alt 1 fullPages).length ≤ 1 :=
  c3_pool_bound_amended 1 fullPages
    (by
      intro off ids h
      cases h
      simp)

/-- The scenario article of the spec: author Alice Ames with a company
affiliation, author Bob Bell with an academic one. -/
def scenarioArticle : Article :=
  { pmid := some "12345"
    title := some "A Study"
    pubDate := some { year := some "2023", month := some "May", day := none }
    authors :=
      [{ lastName := some "Ames", foreName := some "Alice",
         affiliationInfos := [some "Acme Therapeutics Inc"] },
       { lastName := some "Bell", foreName := some "Bob",
         affiliationInfos := [some "State University"] }]
    abstractTexts := [some "jdoe@acme.com"] }

/-- C4: the extractor yields `none` exactly when the company-author set is
empty (so every record entering the ResultSet has a non-empty set), and
every name in that set is the name of an author entry with at least one
affiliation the classifier accepted as a company. -/
theorem c4_gatekeeping (article : Article) :
    (extract_paper_data article = none ↔
      filter_company_authors (extract_authors_and_affiliations article) = [])
    ∧ (∀ r, extract_paper_data article = some r →
        filter_company_authors (extract_authors_and_affiliations article) ≠ [])
    ∧ (∀ name ∈ filter_company_authors (extract_authors_and_affiliations article),
        ∃ info ∈ extract_authors_and_affiliations article,
          info.name = name ∧ ∃ aff ∈ info.affiliations,
            is_company_affiliation aff = true) := by
  refine ⟨?_, ?_, ?_⟩
  · unfold extract_paper_data
    by_cases h : (filter_company_authors (extract_authors_and_affiliations article)).isEmpty
    · simp [h, List.isEmpty_iff.mp h]
    · simp only [h, Bool.false_eq_true, if_false]
      constructor
      · intro hx
        exact absurd hx (by simp)
      · intro hx
        rw [hx] at h
        simp at h
  · intro r hr
    unfold extract_paper_data at hr
    by_cases h : (filter_company_authors (extract_authors_and_affiliations article)).isEmpty
    · simp [h] at hr
    · intro hempty
      rw [hempty] at h
      simp at h
  · intro name hname
    rw [filter_company_authors, List.mem_dedup] at hname
    obtain ⟨a, ha, rfl⟩ := List.mem_map.mp hname
    obtain ⟨hmem, hcond⟩ := List.mem_filter.mp ha
    obtain ⟨aff, haff, hc⟩ := List.any_eq_true.mp hcond
    exact ⟨a, hmem, rfl, aff, haff, hc⟩

/-- C4 witness: on the scenario article the company-author "Alice Ames" is
backed by an author entry whose affiliation the classifier accepted. -/
theorem c4_gatekeeping_witness :
    ∃ info ∈ extract_authors_and_affiliations scenarioArticle,
      info.name = "Alice Ames" ∧ ∃ aff ∈ info.affiliations,
        is_company_affiliation aff = true :=
  (c4_gatekeeping scenarioArticle).2.2 "Alice Ames" (by decide)

/-- C9 counterexample: an author entry with a ForeName but no LastName has a
name part present, yet the extracted name is the sentinel "Unknown" (Python
`last or "Unknown"` ignores the fore name once the full combination is
unavailable). -/
theorem c9_unknown_name_counterexample :
    author_name (some "John") none = "Unknown" ∧ pyTruthy (some "John") = true := by
  decide

/-- C9 amended: the name is the full "fore last" combination when both parts
are present and non-empty; otherwise it is the last name alone when that is
present and non-empty; otherwise — in particular whenever the last name is
missing or empty, even if a fore name is present — it is the sentinel
"Unknown". -/
theorem c9_author_name_amended (fore last : Option String) :
    (pyTruthy last = false → author_name fore last = "Unknown")
    ∧ (pyTruthy fore = true → pyTruthy last = true →
        author_name fore last = fore.getD "" ++ " " ++ last.getD "")
    ∧ (pyTruthy fore = false → pyTruthy last = true →
        author_name fore last = last.getD "") := by
  refine ⟨?_, ?_, ?_⟩
  · intro h
    unfold author_name
    simp [h]
  · intro hf hl
    unfold author_name
    simp [hf, hl]
  · intro hf hl
    unfold author_name
    simp [hf, hl]

/-- C9 amended witness: the three branches at concrete inputs. -/
theorem c9_author_name_amended_witness :
    author_name (some "Jane") none = "Unknown"
    ∧ author_name (some "Jane") (some "Doe") = "Jane Doe"
    ∧ author_name none (some "Doe") = "Doe" :=
  ⟨(c9_author_name_amended (some "Jane") none).1 (by decide),
   ((c9_author_name_amended (some "Jane") (some "Doe")).2.1 (by decide)
     (by decide)).trans (by decide),
   ((c9_author_name_amended none (some "Doe")).2.2 (by decide) (by decide)).trans rfl⟩

/-- C10: company-author names are deduplicated by string identity — the
result never contains duplicates, and two distinct author entries that both
fall back to the sentinel "Unknown" and both carry a company-classified
affiliation contribute the name exactly once. -/
theorem c10_company_authors_dedup :
    (∀ authors_info : List AuthorInfo, (filter_company_authors authors_info).Nodup)
    ∧ filter_company_authors
        [{ name := "Unknown", affiliations := ["Pfizer Inc"] },
         { name := "Unknown", affiliations := ["Moderna Ltd"] }] = ["Unknown"] := by
  constructor
  · intro authors_info
    exact List.nodup_dedup _
  · decide

/-- C2: for every pool and transport, with a positive quota the accumulated
ResultSet never exceeds the quota (first conjunct), and the cutoff also holds
within a single batch: one batch whose articles would overshoot contributes
only up to the quota (second conjunct). -/
theorem c2_quota_cap (max_results : Nat) (transport : List String → BatchResult)
    (pmids : List String) (h : 1 ≤ max_results) :
    (fetch_paper_details max_results transport pmids).length ≤ max_results
    ∧ (∀ resp acc, acc.length < max_results →
        (fetch_batch_details max_results resp acc).length ≤ max_results) := by
  constructor
  · unfold fetch_paper_details
    by_cases hp : pmids.isEmpty
    · simp [hp]
    · simp only [hp, Bool.false_eq_true, if_false]
      exact fetch_paper_details_loop_length_le max_results transport (chunks100 pmids) []
        (by simp only [List.length_nil]; omega)
  · intro resp acc hacc
    exact fetch_batch_details_length_le max_results resp acc hacc

/-- C2 witness: quota 1, a pool of one identifier whose batch yields two
qualifying articles — both the run and the single overshooting batch are
capped at one record. -/
theorem c2_quota_cap_witness :
    (fetch_paper_details 1
      (fun _ => BatchResult.ok [ArticleNode.wellFormed scenarioArticle,
                                ArticleNode.wellFormed scenarioArticle])
      ["p1"]).length ≤ 1
    ∧ (fetch_batch_details 1
        (BatchResult.ok [ArticleNode.wellFormed scenarioArticle,
                         ArticleNode.wellFormed scenarioArticle]) []).length ≤ 1 :=
  ⟨(c2_quota_cap 1
      (fun _ => BatchResult.ok [ArticleNode.wellFormed scenarioArticle,
                                ArticleNode.wellFormed scenarioArticle])
      ["p1"] (by decide)).1,
   (c2_quota_cap 1
      (fun _ => BatchResult.ok [ArticleNode.wellFormed scenarioArticle,
                                ArticleNode.wellFormed scenarioArticle])
      ["p1"] (by decide)).2
     (BatchResult.ok [ArticleNode.wellFormed scenarioArticle,
                      ArticleNode.wellFormed scenarioArticle]) [] (by decide)⟩

/-- C5: a transport or parse fault on the current batch contributes zero
records — the accumulated ResultSet passes through unchanged — and the batch
loop then proceeds to the remaining batches exactly as it stood before the
faulted batch. -/
theorem c5_batch_fault_continues (max_results : Nat)
    (transport : List String → BatchResult) (batch : List String)
    (rest : List (List String)) (acc : List PaperRecord)
    (hf : transport batch = BatchResult.fault) (h : acc.length < max_results) :
    fetch_batch_details max_results (transport batch) acc = acc
    ∧ fetch_paper_details_loop max_results transport (batch :: rest) acc
        = fetch_paper_details_loop max_results transport rest acc := by
  constructor
  · rw [hf]
    rfl
  · simp only [fetch_paper_details_loop, hf, fetch_batch_details]
    simp only [Nat.not_le.mpr h, if_false]

/-- C5 witness: with quota 1, a faulted first batch leaves the empty
accumulator unchanged and the loop moves on to the second batch. -/
theorem c5_batch_fault_continues_witness :
    fetch_batch_details 1 ((fun _ => BatchResult.fault) ["p1"]) [] = []
    ∧ fetch_paper_details_loop 1 (fun _ => BatchResult.fault) [["p1"], ["p2"]] []
        = fetch_paper_details_loop 1 (fun _ => BatchResult.fault) [["p2"]] [] :=
  c5_batch_fault_continues 1 (fun _ => BatchResult.fault) ["p1"] [["p2"]] []
    rfl (by decide)

/-- C7: an article node whose structure raises during extraction is converted
to a null result by the per-article `except` clause, and the article loop
simply continues with the remaining nodes of the batch — the batch is never
aborted, whatever the accumulator or quota. -/
theorem c7_extraction_fault_granularity (max_results : Nat)
    (rest : List ArticleNode) (acc : List PaperRecord) :
    extract_paper_data_node ArticleNode.faulty = none
    ∧ process_articles max_results (ArticleNode.faulty :: rest) acc
        = process_articles max_results rest acc := by
  constructor
  · rfl
  · simp only [process_articles, extract_paper_data_node]

end GetPapers
